import Mathlib

/-!
Verification of the flight-profit calculation engine.

The repository contains three scripts implementing the same pipeline:
`planning.js` (class-aware seat capacities, errors returned as data values)
and two total-capacity variants (an object-based one and a positional one)
that perform an explicit numeric sanity check, log diagnostics to the
console and return `null` on failure.  The class-aware pipeline is embedded
in namespace `Planning`, the positional total-capacity pipeline in
namespace `Batch`; the object-based variant is behaviourally identical to
the `Batch` one for everything the claims touch.

Numbers are modelled as exact rationals extended with the JavaScript
special values `NaN` and the two signed infinities; binary-float rounding
is abstracted away, special-value propagation and comparison semantics
follow JavaScript.  Fields produced in the source by `parseInt` /
`parseFloat` (which can yield `NaN`) are modelled as such extended numbers.
-/

/-- A JavaScript number: a finite rational, `NaN`, or a signed infinity. -/
inductive JsNum where
  | nan : JsNum
  | inf (pos : Bool) : JsNum
  | num (q : ℚ) : JsNum
deriving DecidableEq

/-- JavaScript unary minus. -/
def jneg : JsNum → JsNum
  | .nan => .nan
  | .inf p => .inf (!p)
  | .num q => .num (-q)

/-- JavaScript addition: `NaN` propagates, opposite infinities give `NaN`. -/
def jadd : JsNum → JsNum → JsNum
  | .nan, _ => .nan
  | _, .nan => .nan
  | .inf p, .inf q => if p = q then .inf p else .nan
  | .inf p, .num _ => .inf p
  | .num _, .inf p => .inf p
  | .num a, .num b => .num (a + b)

/-- JavaScript subtraction. -/
def jsub (a b : JsNum) : JsNum := jadd a (jneg b)

/-- JavaScript multiplication: `0 * Infinity = NaN`, signs multiply. -/
def jmul : JsNum → JsNum → JsNum
  | .nan, _ => .nan
  | _, .nan => .nan
  | .inf p, .inf q => .inf (p == q)
  | .inf p, .num b => if b = 0 then .nan else .inf (p == decide (0 < b))
  | .num a, .inf q => if a = 0 then .nan else .inf (q == decide (0 < a))
  | .num a, .num b => .num (a * b)

/-- JavaScript division: `x / 0` is a signed infinity for `x ≠ 0`,
`0 / 0 = NaN`, `Infinity / Infinity = NaN`, finite over infinity is `0`. -/
def jdiv : JsNum → JsNum → JsNum
  | .nan, _ => .nan
  | _, .nan => .nan
  | .inf _, .inf _ => .nan
  | .inf p, .num b => .inf (p == decide (0 ≤ b))
  | .num _, .inf _ => .num 0
  | .num a, .num b =>
      if b = 0 then (if a = 0 then .nan else .inf (decide (0 < a)))
      else .num (a / b)

/-- JavaScript strict greater-than: any comparison involving `NaN` is false. -/
def jgt : JsNum → JsNum → Bool
  | .nan, _ => false
  | _, .nan => false
  | .inf p, .inf q => p && !q
  | .inf p, .num _ => p
  | .num _, .inf q => !q
  | .num a, .num b => decide (b < a)

/-- JavaScript `Math.ceil`, identity on the special values. -/
def jceil : JsNum → JsNum
  | .nan => .nan
  | .inf p => .inf p
  | .num q => .num (⌈q⌉ : ℚ)

/-- JavaScript `Number.prototype.toFixed(2)` viewed as a number: rounding
to two decimal digits, half away from zero; `NaN` and infinities are kept. -/
def toFixed2 : JsNum → JsNum
  | .nan => .nan
  | .inf p => .inf p
  | .num q =>
      .num (if 0 ≤ q then ((⌊q * 100 + 1 / 2⌋ : ℤ) : ℚ) / 100
            else -(((⌊-(q * 100) + 1 / 2⌋ : ℤ) : ℚ) / 100))

/-- JavaScript global `isNaN` on an already-numeric value. -/
def jsIsNaN : JsNum → Bool
  | .nan => true
  | _ => false

/-- A value is a finite number: neither `NaN` nor an infinity. -/
def jsIsFinite : JsNum → Bool
  | .num _ => true
  | _ => false

/-- A flight booking request, fields as produced by the `Flight`
constructor / `parseFlightData`: seat counts are `parseInt` results and
prices are `parseFloat` results (hence possibly `NaN`). -/
structure Flight where
  ukAirport : String
  overseasAirport : String
  aircraftType : String
  economySeats : JsNum
  businessSeats : JsNum
  firstClassSeats : JsNum
  economyPrice : JsNum
  businessPrice : JsNum
  firstClassPrice : JsNum
deriving DecidableEq

/-- An airports-table record; the two distance fields hold the
`parseFloat` results of the record's third and fourth CSV columns. -/
structure Airport where
  code : String
  name : String
  distanceFromMan : JsNum
  distanceFromLhr : JsNum
deriving DecidableEq

/-- JavaScript `String.prototype.toUpperCase` (ASCII, as used on the
airport and aircraft codes of this repository). -/
def toUpperCase (s : String) : String := ⟨s.data.map Char.toUpper⟩

/-- The shared lookup: `dataSet.find(item => item[key].toUpperCase() ===
key.toUpperCase())`, with the positional key column given as a field
accessor. -/
def findDetails {α : Type} (key : String) (dataSet : List α) (keyOf : α → String) : Option α :=
  dataSet.find? (fun item => toUpperCase (keyOf item) == toUpperCase key)

namespace Planning

/-- An aircraft-table record as parsed by `planning.js`: running cost from
`parseFloat(aircraft[1].replace(/[^0-9.]/g, ""))`, max range from
`parseFloat(aircraft[2])`, and three per-class capacities from
`parseInt(aircraft[3..5])`. -/
structure Aircraft where
  type : String
  runningCostPerSeatPer100km : JsNum
  maxFlightRange : JsNum
  economySeats : JsNum
  businessSeats : JsNum
  firstClassSeats : JsNum
deriving DecidableEq

/-- The failure cases of `planning.js` `calculateProfit`; each constructor
carries exactly the values interpolated into the returned `error` string. -/
inductive CalcError where
  | unknownAirport (code : String) (available : List String)
  | unknownAircraft (ukAirport overseasAirport aircraftType : String) (available : List String)
  | rangeExceeded (ukAirport overseasAirport aircraftType : String) (distance maxFlightRange : JsNum)
  | classUnavailable (ukAirport overseasAirport aircraftType className : String)
  | classOverbooking (ukAirport overseasAirport aircraftType className : String) (booked available : JsNum)
  | totalOverbooking (ukAirport overseasAirport aircraftType : String) (booked available : JsNum)
deriving DecidableEq

/-- The success record returned by `planning.js` `calculateProfit`; the
monetary fields hold the `toFixed(2)` values the source puts in them. -/
structure CalcResult where
  ukAirport : String
  overseasAirport : String
  aircraftType : String
  income : JsNum
  cost : JsNum
  profit : JsNum
  profitMargin : JsNum
  co2Emissions : JsNum
deriving DecidableEq

/-- Distance selection of `planning.js` line 90:
`flight.ukAirport.toUpperCase() === "MAN" ? airport[2] : airport[3]`. -/
def distanceFor (flight : Flight) (airport : Airport) : JsNum :=
  if toUpperCase flight.ukAirport == "MAN" then airport.distanceFromMan else airport.distanceFromLhr

/-- CO2 emissions: `(distance * totalSeats * 0.115).toFixed(2)`. -/
def calculateCO2Emissions (distance totalSeats : JsNum) : JsNum :=
  toFixed2 (jmul (jmul distance totalSeats) (.num (0.115 : ℚ)))

/-- The `planning.js` pipeline `FlightProfitCalculator.calculateProfit`. -/
def calculateProfit (flight : Flight) (airports : List Airport) (aircrafts : List Aircraft) :
    Except CalcError CalcResult :=
  match findDetails flight.overseasAirport airports (fun a => a.code) with
  | none => .error (.unknownAirport flight.overseasAirport (airports.map (fun a => a.code)))
  | some airport =>
    match findDetails flight.aircraftType aircrafts (fun a => a.type) with
    | none => .error (.unknownAircraft flight.ukAirport flight.overseasAirport
        flight.aircraftType (aircrafts.map (fun a => a.type)))
    | some aircraft =>
      let distance := distanceFor flight airport
      let totalSeats := jadd (jadd aircraft.economySeats aircraft.businessSeats) aircraft.firstClassSeats
      if jgt distance aircraft.maxFlightRange then
        .error (.rangeExceeded flight.ukAirport flight.overseasAirport flight.aircraftType
          distance aircraft.maxFlightRange)
      else if jgt flight.economySeats (.num 0) && (aircraft.economySeats == .num 0) then
        .error (.classUnavailable flight.ukAirport flight.overseasAirport flight.aircraftType "economy")
      else if jgt flight.businessSeats (.num 0) && (aircraft.businessSeats == .num 0) then
        .error (.classUnavailable flight.ukAirport flight.overseasAirport flight.aircraftType "business")
      else if jgt flight.firstClassSeats (.num 0) && (aircraft.firstClassSeats == .num 0) then
        .error (.classUnavailable flight.ukAirport flight.overseasAirport flight.aircraftType "first-class")
      else if jgt flight.economySeats aircraft.economySeats then
        .error (.classOverbooking flight.ukAirport flight.overseasAirport flight.aircraftType
          "economy" flight.economySeats aircraft.economySeats)
      else if jgt flight.businessSeats aircraft.businessSeats then
        .error (.classOverbooking flight.ukAirport flight.overseasAirport flight.aircraftType
          "business" flight.businessSeats aircraft.businessSeats)
      else if jgt flight.firstClassSeats aircraft.firstClassSeats then
        .error (.classOverbooking flight.ukAirport flight.overseasAirport flight.aircraftType
          "first class" flight.firstClassSeats aircraft.firstClassSeats)
      else
        let totalBookedSeats := jadd (jadd flight.economySeats flight.businessSeats) flight.firstClassSeats
        if jgt totalBookedSeats totalSeats then
          .error (.totalOverbooking flight.ukAirport flight.overseasAirport flight.aircraftType
            totalBookedSeats totalSeats)
        else
          let income := jadd (jadd (jmul flight.economySeats flight.economyPrice)
            (jmul flight.businessSeats flight.businessPrice)) (jmul flight.firstClassSeats flight.firstClassPrice)
          let costPerSeat := jmul aircraft.runningCostPerSeatPer100km (jdiv distance (.num 100))
          let totalCost := jmul costPerSeat totalBookedSeats
          let profit := jsub income totalCost
          let profitMargin := toFixed2 (jmul (jdiv profit income) (.num 100))
          let co2Emissions := calculateCO2Emissions distance totalBookedSeats
          .ok { ukAirport := flight.ukAirport, overseasAirport := flight.overseasAirport,
                aircraftType := flight.aircraftType,
                income := toFixed2 income, cost := toFixed2 totalCost, profit := toFixed2 profit,
                profitMargin := profitMargin, co2Emissions := co2Emissions }

/-- The result kind of a `planning.js` calculation, forgetting payloads:
`0` success, `1` unknown airport, `2` unknown aircraft, `3` range exceeded,
`4` class unavailable, `5` per-class overbooking, `6` total overbooking.
No kind for an invalid or unknown UK origin exists. -/
def resultKind : Except CalcError CalcResult → Nat
  | .ok _ => 0
  | .error (.unknownAirport _ _) => 1
  | .error (.unknownAircraft _ _ _ _) => 2
  | .error (.rangeExceeded _ _ _ _ _) => 3
  | .error (.classUnavailable _ _ _ _) => 4
  | .error (.classOverbooking _ _ _ _ _ _) => 5
  | .error (.totalOverbooking _ _ _ _ _) => 6

/-- An error is an overbooking error (per-class or total scope). -/
def IsOverbooking : CalcError → Prop
  | .classOverbooking _ _ _ _ _ _ => True
  | .totalOverbooking _ _ _ _ _ => True
  | _ => False

/-- The error value carries the context of the failing request: the
airport and overseas codes, the aircraft type, the table key lists on a
lookup miss, the distance and max range on a range failure, and the
requested versus available seat counts on an overbooking failure. -/
def ErrorContext (flight : Flight) (airports : List Airport) (aircrafts : List Aircraft) :
    CalcError → Prop
  | .unknownAirport code available =>
      code = flight.overseasAirport ∧ available = airports.map (fun a => a.code)
  | .unknownAircraft uk ov ty available =>
      uk = flight.ukAirport ∧ ov = flight.overseasAirport ∧ ty = flight.aircraftType ∧
      available = aircrafts.map (fun a => a.type)
  | .rangeExceeded uk ov ty d mr =>
      uk = flight.ukAirport ∧ ov = flight.overseasAirport ∧ ty = flight.aircraftType ∧
      ∃ airport aircraft,
        findDetails flight.overseasAirport airports (fun a => a.code) = some airport ∧
        findDetails flight.aircraftType aircrafts (fun a => a.type) = some aircraft ∧
        d = distanceFor flight airport ∧ mr = aircraft.maxFlightRange
  | .classUnavailable uk ov ty _ =>
      uk = flight.ukAirport ∧ ov = flight.overseasAirport ∧ ty = flight.aircraftType
  | .classOverbooking uk ov ty cls booked available =>
      uk = flight.ukAirport ∧ ov = flight.overseasAirport ∧ ty = flight.aircraftType ∧
      ∃ aircraft, findDetails flight.aircraftType aircrafts (fun a => a.type) = some aircraft ∧
        ((cls = "economy" ∧ booked = flight.economySeats ∧ available = aircraft.economySeats) ∨
         (cls = "business" ∧ booked = flight.businessSeats ∧ available = aircraft.businessSeats) ∨
         (cls = "first class" ∧ booked = flight.firstClassSeats ∧ available = aircraft.firstClassSeats))
  | .totalOverbooking uk ov ty booked available =>
      uk = flight.ukAirport ∧ ov = flight.overseasAirport ∧ ty = flight.aircraftType ∧
      booked = jadd (jadd flight.economySeats flight.businessSeats) flight.firstClassSeats ∧
      ∃ aircraft, findDetails flight.aircraftType aircrafts (fun a => a.type) = some aircraft ∧
        available = jadd (jadd aircraft.economySeats aircraft.businessSeats) aircraft.firstClassSeats

/-- Projection: the `profit` field of a successful result, if any. -/
def successProfit : Except CalcError CalcResult → Option JsNum
  | .ok s => some s.profit
  | .error _ => none

/-- Projection: the `income` field of a successful result, if any. -/
def successIncome : Except CalcError CalcResult → Option JsNum
  | .ok s => some s.income
  | .error _ => none

/-- Projection: the `profitMargin` field of a successful result, if any. -/
def successMargin : Except CalcError CalcResult → Option JsNum
  | .ok s => some s.profitMargin
  | .error _ => none

/-- Whether the calculation produced a success record. -/
def isSuccess : Except CalcError CalcResult → Bool
  | .ok _ => true
  | .error _ => false

end Planning

namespace Batch

/-- An aircraft-table record as parsed by the total-capacity variants:
running cost with the currency symbol stripped, max range, and a single
total-seats figure from `parseInt(aircraft[3])`. -/
structure Aircraft where
  type : String
  runningCostPerSeatPer100km : JsNum
  maxFlightRange : JsNum
  totalSeats : JsNum
deriving DecidableEq

/-- The failure cases of the total-capacity `calculateFlightProfit`; each
constructor carries exactly the values interpolated into the diagnostic the
source logs with `console.error` before returning `null`. -/
inductive CalcError where
  | invalidAirport (code : String) (available : List String)
  | invalidAircraft (aircraftType : String)
  | invalidNumericData (dataType : String) (value : JsNum)
  | rangeExceeded (distance maxFlightRange : JsNum)
  | overbooking (booked totalSeats : JsNum)
deriving DecidableEq

/-- The success record returned by the total-capacity
`calculateFlightProfit`. -/
structure CalcResult where
  ukAirport : String
  overseasAirport : String
  aircraftType : String
  economySeats : JsNum
  businessSeats : JsNum
  firstClassSeats : JsNum
  income : JsNum
  cost : JsNum
  profit : JsNum
  breakEvenSeats : JsNum
  loadFactor : JsNum
  profitMargin : JsNum
deriving DecidableEq

/-- Distance selection of the total-capacity variants:
`ukAirport === 'MAN' ? airport[2] : airport[3]` — a case-sensitive
comparison (`getDistance` in the object-based variant). -/
def getDistance (ukAirport : String) (airport : Airport) : JsNum :=
  if ukAirport == "MAN" then airport.distanceFromMan else airport.distanceFromLhr

/-- The positional total-capacity pipeline `calculateFlightProfit`.  An
`Except.error e` models the source logging the diagnostic rendered from
`e` with `console.error` and returning `null`; the value actually handed
back to the caller is recovered by `returnValue`. -/
def calculateFlightProfit (flight : Flight) (airports : List Airport) (aircrafts : List Aircraft) :
    Except CalcError CalcResult :=
  match findDetails flight.overseasAirport airports (fun a => a.code) with
  | none => .error (.invalidAirport flight.overseasAirport (airports.map (fun a => a.code)))
  | some airport =>
    match findDetails flight.aircraftType aircrafts (fun a => a.type) with
    | none => .error (.invalidAircraft flight.aircraftType)
    | some aircraft =>
      let distance := getDistance flight.ukAirport airport
      if jsIsNaN distance then .error (.invalidNumericData "distance" distance)
      else if jsIsNaN aircraft.runningCostPerSeatPer100km then
        .error (.invalidNumericData "running cost" aircraft.runningCostPerSeatPer100km)
      else if jsIsNaN aircraft.maxFlightRange then
        .error (.invalidNumericData "max flight range" aircraft.maxFlightRange)
      else if jsIsNaN aircraft.totalSeats then
        .error (.invalidNumericData "total seats" aircraft.totalSeats)
      else if jgt distance aircraft.maxFlightRange then
        .error (.rangeExceeded distance aircraft.maxFlightRange)
      else
        let totalBookedSeats := jadd (jadd flight.economySeats flight.businessSeats) flight.firstClassSeats
        if jgt totalBookedSeats aircraft.totalSeats then
          .error (.overbooking totalBookedSeats aircraft.totalSeats)
        else
          let income := jadd (jadd (jmul flight.economySeats flight.economyPrice)
            (jmul flight.businessSeats flight.businessPrice)) (jmul flight.firstClassSeats flight.firstClassPrice)
          if jsIsNaN income then .error (.invalidNumericData "income" income)
          else
            let costPerSeat := jmul aircraft.runningCostPerSeatPer100km (jdiv distance (.num 100))
            let totalCost := jmul costPerSeat totalBookedSeats
            if jsIsNaN totalCost then .error (.invalidNumericData "total cost" totalCost)
            else
              let profit := jsub income totalCost
              let breakEvenSeats := jceil (jdiv totalCost
                (jdiv (jadd (jadd flight.economyPrice flight.businessPrice) flight.firstClassPrice) (.num 3)))
              let loadFactor := toFixed2 (jmul (jdiv totalBookedSeats aircraft.totalSeats) (.num 100))
              let profitMargin := toFixed2 (jmul (jdiv profit income) (.num 100))
              .ok { ukAirport := flight.ukAirport, overseasAirport := flight.overseasAirport,
                    aircraftType := flight.aircraftType,
                    economySeats := flight.economySeats, businessSeats := flight.businessSeats,
                    firstClassSeats := flight.firstClassSeats,
                    income := toFixed2 income, cost := toFixed2 totalCost, profit := toFixed2 profit,
                    breakEvenSeats := breakEvenSeats, loadFactor := loadFactor,
                    profitMargin := profitMargin }

/-- The value the total-capacity `calculateFlightProfit` actually returns
to its caller: the success record, or `null` (the diagnostic itself only
goes to the console). -/
def returnValue : Except CalcError CalcResult → Option CalcResult
  | .ok r => some r
  | .error _ => none

/-- The list of valid table keys carried by a failure value, if any: only
the airport-lookup miss carries one. -/
def errorKeyList : CalcError → Option (List String)
  | .invalidAirport _ available => some available
  | _ => none

end Batch

/-! Concrete requests and reference records used to instantiate the
theorems below.  All numeric fields are the parse results the pipelines
would obtain from conforming (or, where noted, malformed) CSV rows. -/

def c1flight : Flight :=
  { ukAirport := "MAN", overseasAirport := "JFK", aircraftType := "A320",
    economySeats := .num 10, businessSeats := .num 5, firstClassSeats := .num 2,
    economyPrice := .num 100, businessPrice := .num 200, firstClassPrice := .num 300 }

def c1airport : Airport :=
  { code := "JFK", name := "New York", distanceFromMan := .num 500, distanceFromLhr := .num 600 }

def c1aircraftP : Planning.Aircraft :=
  { type := "A320", runningCostPerSeatPer100km := .num 1, maxFlightRange := .num 10000,
    economySeats := .num 100, businessSeats := .num 50, firstClassSeats := .num 10 }

def c1aircraftB : Batch.Aircraft :=
  { type := "A320", runningCostPerSeatPer100km := .num 1, maxFlightRange := .num 10000,
    totalSeats := .num 160 }

def c1resultP : Planning.CalcResult :=
  { ukAirport := "MAN", overseasAirport := "JFK", aircraftType := "A320",
    income := .num 2600, cost := .num 85, profit := .num 2515,
    profitMargin := .num (9673 / 100), co2Emissions := .num (1955 / 2) }

def c1resultB : Batch.CalcResult :=
  { ukAirport := "MAN", overseasAirport := "JFK", aircraftType := "A320",
    economySeats := .num 10, businessSeats := .num 5, firstClassSeats := .num 2,
    income := .num 2600, cost := .num 85, profit := .num 2515,
    breakEvenSeats := .num 1, loadFactor := .num (1063 / 100), profitMargin := .num (9673 / 100) }

/-- A request that is both out of range and overbooked in total. -/
def cx2flight : Flight :=
  { ukAirport := "MAN", overseasAirport := "JFK", aircraftType := "A320",
    economySeats := .num 2, businessSeats := .num 2, firstClassSeats := .num 2,
    economyPrice := .num 10, businessPrice := .num 20, firstClassPrice := .num 30 }

def cx2airport : Airport :=
  { code := "JFK", name := "New York", distanceFromMan := .num 200, distanceFromLhr := .num 300 }

def cx2aircraft : Planning.Aircraft :=
  { type := "A320", runningCostPerSeatPer100km := .num 1, maxFlightRange := .num 100,
    economySeats := .num 1, businessSeats := .num 1, firstClassSeats := .num 1 }

/-- A request within range whose economy booking exceeds total capacity. -/
def w2flight : Flight :=
  { ukAirport := "MAN", overseasAirport := "JFK", aircraftType := "A320",
    economySeats := .num 5, businessSeats := .num 0, firstClassSeats := .num 0,
    economyPrice := .num 10, businessPrice := .num 20, firstClassPrice := .num 30 }

def w2airport : Airport :=
  { code := "JFK", name := "New York", distanceFromMan := .num 50, distanceFromLhr := .num 60 }

def w2aircraftP : Planning.Aircraft :=
  { type := "A320", runningCostPerSeatPer100km := .num 1, maxFlightRange := .num 100,
    economySeats := .num 2, businessSeats := .num 1, firstClassSeats := .num 1 }

def w2aircraftB : Batch.Aircraft :=
  { type := "A320", runningCostPerSeatPer100km := .num 1, maxFlightRange := .num 100,
    totalSeats := .num 4 }

/-- An arbitrary success record used to instantiate never-a-success facts. -/
def dummyResult : Planning.CalcResult :=
  { ukAirport := "", overseasAirport := "", aircraftType := "",
    income := .num 0, cost := .num 0, profit := .num 0,
    profitMargin := .num 0, co2Emissions := .num 0 }

/-- An aircraft record whose running cost column is malformed: the
stripped string parses to `NaN`. -/
def cx3aircraftB : Batch.Aircraft :=
  { type := "A320", runningCostPerSeatPer100km := .nan, maxFlightRange := .num 100,
    totalSeats := .num 150 }

def w3flight : Flight :=
  { ukAirport := "MAN", overseasAirport := "JFK", aircraftType := "A320",
    economySeats := .num 1, businessSeats := .num 1, firstClassSeats := .num 1,
    economyPrice := .num 10, businessPrice := .num 20, firstClassPrice := .num 30 }

def w3airport : Airport :=
  { code := "JFK", name := "New York", distanceFromMan := .num 200, distanceFromLhr := .num 300 }

def w3aircraftP : Planning.Aircraft :=
  { type := "A320", runningCostPerSeatPer100km := .num 1, maxFlightRange := .num 100,
    economySeats := .num 10, businessSeats := .num 10, firstClassSeats := .num 10 }

def w3aircraftB : Batch.Aircraft :=
  { type := "A320", runningCostPerSeatPer100km := .num 1, maxFlightRange := .num 100,
    totalSeats := .num 30 }

def cx4flight : Flight :=
  { ukAirport := "MAN", overseasAirport := "JFK", aircraftType := "A320",
    economySeats := .num 0, businessSeats := .num 0, firstClassSeats := .num 0,
    economyPrice := .num 10, businessPrice := .num 20, firstClassPrice := .num 30 }

def cx4airport : Airport :=
  { code := "JFK", name := "New York", distanceFromMan := .num 500, distanceFromLhr := .num 600 }

/-- An aircraft record whose economy-capacity column is non-numeric. -/
def cx4aircraftP : Planning.Aircraft :=
  { type := "A320", runningCostPerSeatPer100km := .num 1, maxFlightRange := .num 10000,
    economySeats := .nan, businessSeats := .num 10, firstClassSeats := .num 10 }

def w4flight : Flight :=
  { ukAirport := "MAN", overseasAirport := "JFK", aircraftType := "A320",
    economySeats := .num 1, businessSeats := .num 1, firstClassSeats := .num 1,
    economyPrice := .num 10, businessPrice := .num 20, firstClassPrice := .num 30 }

def w4airport : Airport :=
  { code := "JFK", name := "New York", distanceFromMan := .num 50, distanceFromLhr := .num 60 }

/-- An airport record whose MAN-distance column is non-numeric. -/
def w4airportNaN : Airport :=
  { code := "JFK", name := "New York", distanceFromMan := .nan, distanceFromLhr := .num 60 }

def w4aircraftB : Batch.Aircraft :=
  { type := "A320", runningCostPerSeatPer100km := .num 1, maxFlightRange := .num 100,
    totalSeats := .num 30 }

def w4aircraftRC : Batch.Aircraft :=
  { type := "A320", runningCostPerSeatPer100km := .nan, maxFlightRange := .num 100,
    totalSeats := .num 30 }

def w4aircraftMR : Batch.Aircraft :=
  { type := "A320", runningCostPerSeatPer100km := .num 1, maxFlightRange := .nan,
    totalSeats := .num 30 }

def w4aircraftTS : Batch.Aircraft :=
  { type := "A320", runningCostPerSeatPer100km := .num 1, maxFlightRange := .num 100,
    totalSeats := .nan }

/-- A request whose UK origin is the primary code in lower case. -/
def cx5flight : Flight :=
  { ukAirport := "man", overseasAirport := "JFK", aircraftType := "A320",
    economySeats := .num 1, businessSeats := .num 1, firstClassSeats := .num 1,
    economyPrice := .num 10, businessPrice := .num 20, firstClassPrice := .num 30 }

def cx5airport : Airport :=
  { code := "JFK", name := "New York", distanceFromMan := .num 50, distanceFromLhr := .num 300 }

def cx5aircraftB : Batch.Aircraft :=
  { type := "A320", runningCostPerSeatPer100km := .num 1, maxFlightRange := .num 100,
    totalSeats := .num 150 }

def w5airport : Airport :=
  { code := "JFK", name := "New York", distanceFromMan := .num 500, distanceFromLhr := .num 600 }

def w5flightMaN : Flight :=
  { ukAirport := "MaN", overseasAirport := "JFK", aircraftType := "A320",
    economySeats := .num 1, businessSeats := .num 1, firstClassSeats := .num 1,
    economyPrice := .num 10, businessPrice := .num 20, firstClassPrice := .num 30 }

def w5flightLGW : Flight :=
  { ukAirport := "LGW", overseasAirport := "JFK", aircraftType := "A320",
    economySeats := .num 1, businessSeats := .num 1, firstClassSeats := .num 1,
    economyPrice := .num 10, businessPrice := .num 20, firstClassPrice := .num 30 }

/-- A request naming an aircraft type absent from the reference table. -/
def cx6flight : Flight :=
  { ukAirport := "MAN", overseasAirport := "JFK", aircraftType := "B900",
    economySeats := .num 1, businessSeats := .num 1, firstClassSeats := .num 1,
    economyPrice := .num 10, businessPrice := .num 20, firstClassPrice := .num 30 }

def cx6airport : Airport :=
  { code := "JFK", name := "New York", distanceFromMan := .num 50, distanceFromLhr := .num 60 }

def cx6aircraftB : Batch.Aircraft :=
  { type := "A320", runningCostPerSeatPer100km := .num 1, maxFlightRange := .num 100,
    totalSeats := .num 30 }

def w6flight : Flight :=
  { ukAirport := "MAN", overseasAirport := "XXX", aircraftType := "B900",
    economySeats := .num 1, businessSeats := .num 1, firstClassSeats := .num 1,
    economyPrice := .num 10, businessPrice := .num 20, firstClassPrice := .num 30 }

def w6flightJFK : Flight :=
  { ukAirport := "MAN", overseasAirport := "JFK", aircraftType := "B900",
    economySeats := .num 1, businessSeats := .num 1, firstClassSeats := .num 1,
    economyPrice := .num 10, businessPrice := .num 20, firstClassPrice := .num 30 }

def w6airport : Airport :=
  { code := "JFK", name := "New York", distanceFromMan := .num 50, distanceFromLhr := .num 60 }

def w6aircraftP : Planning.Aircraft :=
  { type := "A320", runningCostPerSeatPer100km := .num 1, maxFlightRange := .num 100,
    economySeats := .num 10, businessSeats := .num 10, firstClassSeats := .num 10 }

def w6aircraftB : Batch.Aircraft :=
  { type := "A320", runningCostPerSeatPer100km := .num 1, maxFlightRange := .num 100,
    totalSeats := .num 30 }

def cx7flight : Flight :=
  { ukAirport := "MAN", overseasAirport := "JFK", aircraftType := "A320",
    economySeats := .num 1, businessSeats := .num 1, firstClassSeats := .num 1,
    economyPrice := .num 10, businessPrice := .num 20, firstClassPrice := .num 30 }

/-- A request with a negative economy booking, as `parseInt` produces for a
negative CSV field. -/
def cx8flight : Flight :=
  { ukAirport := "MAN", overseasAirport := "JFK", aircraftType := "A320",
    economySeats := .num (-5), businessSeats := .num 1, firstClassSeats := .num 1,
    economyPrice := .num 10, businessPrice := .num 20, firstClassPrice := .num 30 }

def cx8airport : Airport :=
  { code := "JFK", name := "New York", distanceFromMan := .num 500, distanceFromLhr := .num 600 }

/-- An aircraft record with a malformed running-cost column. -/
def cx8aircraftP : Planning.Aircraft :=
  { type := "A320", runningCostPerSeatPer100km := .nan, maxFlightRange := .num 10000,
    economySeats := .num 10, businessSeats := .num 10, firstClassSeats := .num 10 }

def w8flight : Flight :=
  { ukAirport := "MAN", overseasAirport := "JFK", aircraftType := "A320",
    economySeats := .num 10, businessSeats := .num 5, firstClassSeats := .num 2,
    economyPrice := .num 100, businessPrice := .num 200, firstClassPrice := .num 300 }

def w8airport : Airport :=
  { code := "JFK", name := "New York", distanceFromMan := .num 500, distanceFromLhr := .num 600 }

def w8aircraftP : Planning.Aircraft :=
  { type := "A320", runningCostPerSeatPer100km := .num 1, maxFlightRange := .num 10000,
    economySeats := .num 100, businessSeats := .num 50, firstClassSeats := .num 10 }

def w8result : Planning.CalcResult :=
  { ukAirport := "MAN", overseasAirport := "JFK", aircraftType := "A320",
    income := .num 2600, cost := .num 85, profit := .num 2515,
    profitMargin := .num (9673 / 100), co2Emissions := .num (1955 / 2) }

def w8aircraftB : Batch.Aircraft :=
  { type := "A320", runningCostPerSeatPer100km := .num 1, maxFlightRange := .num 10000,
    totalSeats := .num 160 }

def w8resultB : Batch.CalcResult :=
  { ukAirport := "MAN", overseasAirport := "JFK", aircraftType := "A320",
    economySeats := .num 10, businessSeats := .num 5, firstClassSeats := .num 2,
    income := .num 2600, cost := .num 85, profit := .num 2515,
    breakEvenSeats := .num 1, loadFactor := .num (1063 / 100), profitMargin := .num (9673 / 100) }

/-- A fully booked-at-zero-price request: every validation step passes and
the computed income is exactly zero. -/
def c9flight : Flight :=
  { ukAirport := "MAN", overseasAirport := "JFK", aircraftType := "A320",
    economySeats := .num 1, businessSeats := .num 0, firstClassSeats := .num 0,
    economyPrice := .num 0, businessPrice := .num 0, firstClassPrice := .num 0 }

def c9airport : Airport :=
  { code := "JFK", name := "New York", distanceFromMan := .num 50, distanceFromLhr := .num 60 }

def c9aircraftP : Planning.Aircraft :=
  { type := "A320", runningCostPerSeatPer100km := .num 1, maxFlightRange := .num 1000,
    economySeats := .num 10, businessSeats := .num 10, firstClassSeats := .num 10 }

def w10flight : Flight :=
  { ukAirport := "LGW", overseasAirport := "JFK", aircraftType := "A320",
    economySeats := .num 1, businessSeats := .num 1, firstClassSeats := .num 1,
    economyPrice := .num 10, businessPrice := .num 20, firstClassPrice := .num 30 }

def w10airport : Airport :=
  { code := "JFK", name := "New York", distanceFromMan := .num 50, distanceFromLhr := .num 60 }

def w10aircraftP : Planning.Aircraft :=
  { type := "A320", runningCostPerSeatPer100km := .num 1, maxFlightRange := .num 100,
    economySeats := .num 10, businessSeats := .num 10, firstClassSeats := .num 10 }

/-! Helper lemmas. -/

theorem upMAN : toUpperCase "MAN" = "MAN" := rfl
theorem upman : toUpperCase "man" = "MAN" := rfl
theorem upMaN : toUpperCase "MaN" = "MAN" := rfl
theorem upLGW : toUpperCase "LGW" = "LGW" := rfl
theorem uplgw : toUpperCase "lgw" = "LGW" := rfl

theorem distanceFor_man (f : Flight) (ap : Airport) (h : toUpperCase f.ukAirport = "MAN") :
    Planning.distanceFor f ap = ap.distanceFromMan := by
  simp [Planning.distanceFor, h]

theorem distanceFor_other (f : Flight) (ap : Airport) (h : toUpperCase f.ukAirport ≠ "MAN") :
    Planning.distanceFor f ap = ap.distanceFromLhr := by
  simp [Planning.distanceFor, h]

theorem getDistance_man (uk : String) (ap : Airport) (h : uk = "MAN") :
    Batch.getDistance uk ap = ap.distanceFromMan := by
  simp [Batch.getDistance, h]

theorem getDistance_other (uk : String) (ap : Airport) (h : uk ≠ "MAN") :
    Batch.getDistance uk ap = ap.distanceFromLhr := by
  simp [Batch.getDistance, h]

theorem jdiv_num_hundred (a : ℚ) : jdiv (.num a) (.num 100) = .num (a / 100) := by
  norm_num [jdiv]

theorem jgt_no_nan (a b : JsNum) (h : jgt a b = true) :
    jsIsNaN a = false ∧ jsIsNaN b = false := by
  cases a <;> cases b <;> simp_all [jgt, jsIsNaN]

/-- C1: for every request that passes all validation steps, the success
result satisfies `income = Σ classSeats_i * classPrice_i`,
`cost = runningCostPerSeatPer100km * (distance / 100) * totalBookedSeats`
and `profit = income - cost` exactly, each reported through the 2-decimal
`toFixed` contract — in the class-aware pipeline and in the total-capacity
pipeline alike. -/
theorem c1_economics_formulas :
    (∀ (f : Flight) (as : List Airport) (cs : List Planning.Aircraft)
        (ap : Airport) (ac : Planning.Aircraft) (s : Planning.CalcResult),
      findDetails f.overseasAirport as (fun a => a.code) = some ap →
      findDetails f.aircraftType cs (fun a => a.type) = some ac →
      Planning.calculateProfit f as cs = .ok s →
      ∃ income totalCost,
        income = jadd (jadd (jmul f.economySeats f.economyPrice)
          (jmul f.businessSeats f.businessPrice)) (jmul f.firstClassSeats f.firstClassPrice) ∧
        totalCost = jmul (jmul ac.runningCostPerSeatPer100km
          (jdiv (Planning.distanceFor f ap) (.num 100)))
          (jadd (jadd f.economySeats f.businessSeats) f.firstClassSeats) ∧
        s.income = toFixed2 income ∧ s.cost = toFixed2 totalCost ∧
        s.profit = toFixed2 (jsub income totalCost)) ∧
    (∀ (f : Flight) (as : List Airport) (cs : List Batch.Aircraft)
        (ap : Airport) (ac : Batch.Aircraft) (s : Batch.CalcResult),
      findDetails f.overseasAirport as (fun a => a.code) = some ap →
      findDetails f.aircraftType cs (fun a => a.type) = some ac →
      Batch.calculateFlightProfit f as cs = .ok s →
      ∃ income totalCost,
        income = jadd (jadd (jmul f.economySeats f.economyPrice)
          (jmul f.businessSeats f.businessPrice)) (jmul f.firstClassSeats f.firstClassPrice) ∧
        totalCost = jmul (jmul ac.runningCostPerSeatPer100km
          (jdiv (Batch.getDistance f.ukAirport ap) (.num 100)))
          (jadd (jadd f.economySeats f.businessSeats) f.firstClassSeats) ∧
        s.income = toFixed2 income ∧ s.cost = toFixed2 totalCost ∧
        s.profit = toFixed2 (jsub income totalCost)) := by
  constructor
  · intro f as cs ap ac s hap hac hok
    simp only [Planning.calculateProfit, hap, hac] at hok
    repeat' split at hok
    any_goals exact Except.noConfusion hok
    cases hok
    exact ⟨_, _, rfl, rfl, rfl, rfl, rfl⟩
  · intro f as cs ap ac s hap hac hok
    simp only [Batch.calculateFlightProfit, hap, hac] at hok
    repeat' split at hok
    any_goals exact Except.noConfusion hok
    cases hok
    exact ⟨_, _, rfl, rfl, rfl, rfl, rfl⟩

/-- Witness for C1 at a concrete booked flight. -/
theorem c1_economics_formulas_witness :
    (∃ income totalCost,
      income = jadd (jadd (jmul c1flight.economySeats c1flight.economyPrice)
        (jmul c1flight.businessSeats c1flight.businessPrice))
        (jmul c1flight.firstClassSeats c1flight.firstClassPrice) ∧
      totalCost = jmul (jmul c1aircraftP.runningCostPerSeatPer100km
        (jdiv (Planning.distanceFor c1flight c1airport) (.num 100)))
        (jadd (jadd c1flight.economySeats c1flight.businessSeats) c1flight.firstClassSeats) ∧
      c1resultP.income = toFixed2 income ∧ c1resultP.cost = toFixed2 totalCost ∧
      c1resultP.profit = toFixed2 (jsub income totalCost)) ∧
    (∃ income totalCost,
      income = jadd (jadd (jmul c1flight.economySeats c1flight.economyPrice)
        (jmul c1flight.businessSeats c1flight.businessPrice))
        (jmul c1flight.firstClassSeats c1flight.firstClassPrice) ∧
      totalCost = jmul (jmul c1aircraftB.runningCostPerSeatPer100km
        (jdiv (Batch.getDistance c1flight.ukAirport c1airport) (.num 100)))
        (jadd (jadd c1flight.economySeats c1flight.businessSeats) c1flight.firstClassSeats) ∧
      c1resultB.income = toFixed2 income ∧ c1resultB.cost = toFixed2 totalCost ∧
      c1resultB.profit = toFixed2 (jsub income totalCost)) :=
  ⟨c1_economics_formulas.1 c1flight [c1airport] [c1aircraftP] c1airport c1aircraftP c1resultP
      rfl rfl (by
        norm_num [Planning.calculateProfit, findDetails, List.find?, Planning.distanceFor,
          Planning.calculateCO2Emissions, jgt, jadd, jmul, jdiv, jsub, jneg, toFixed2, upMAN,
          c1flight, c1airport, c1aircraftP, c1resultP]),
   c1_economics_formulas.2 c1flight [c1airport] [c1aircraftB] c1airport c1aircraftB c1resultB
      rfl rfl (by
        norm_num [Batch.calculateFlightProfit, findDetails, List.find?, Batch.getDistance,
          jgt, jadd, jmul, jdiv, jsub, jneg, jceil, jsIsNaN, toFixed2,
          show (⌈(17 : ℚ) / 40⌉ : ℤ) = 1 from by norm_num [Int.ceil_eq_iff],
          c1flight, c1airport, c1aircraftB, c1resultB])⟩

/-- C2 counterexample: a request whose airport and aircraft resolve and
whose total booked seats (6) exceed total capacity (3) nevertheless yields
a `RangeExceeded` error, not an `OverbookingError`, because the range check
runs first. -/
theorem c2_counterexample :
    Planning.calculateProfit cx2flight [cx2airport] [cx2aircraft] =
      .error (.rangeExceeded "MAN" "JFK" "A320" (.num 200) (.num 100)) ∧
    jgt (jadd (jadd cx2flight.economySeats cx2flight.businessSeats) cx2flight.firstClassSeats)
      (jadd (jadd cx2aircraft.economySeats cx2aircraft.businessSeats) cx2aircraft.firstClassSeats) =
      true := by
  constructor
  · norm_num [Planning.calculateProfit, findDetails, List.find?, Planning.distanceFor, jgt,
      upMAN, cx2flight, cx2airport, cx2aircraft]
  · norm_num [jgt, jadd, cx2flight, cx2aircraft]

/-- C2 (amended): when the airport and aircraft resolve and total booked
seats exceed total capacity, the result is never a success; it is an
`OverbookingError` once the checks that precede overbooking (range and, in
the class-aware pipeline, class availability) pass — and in the
total-capacity pipeline it is precisely the total-scoped variant carrying
the booked and available counts. -/
theorem c2_total_overbooking_amended :
    (∀ (f : Flight) (as : List Airport) (cs : List Planning.Aircraft)
        (ap : Airport) (ac : Planning.Aircraft),
      findDetails f.overseasAirport as (fun a => a.code) = some ap →
      findDetails f.aircraftType cs (fun a => a.type) = some ac →
      jgt (jadd (jadd f.economySeats f.businessSeats) f.firstClassSeats)
        (jadd (jadd ac.economySeats ac.businessSeats) ac.firstClassSeats) = true →
      Planning.isSuccess (Planning.calculateProfit f as cs) = false) ∧
    (∀ (f : Flight) (as : List Airport) (cs : List Planning.Aircraft)
        (ap : Airport) (ac : Planning.Aircraft),
      findDetails f.overseasAirport as (fun a => a.code) = some ap →
      findDetails f.aircraftType cs (fun a => a.type) = some ac →
      jgt (jadd (jadd f.economySeats f.businessSeats) f.firstClassSeats)
        (jadd (jadd ac.economySeats ac.businessSeats) ac.firstClassSeats) = true →
      jgt (Planning.distanceFor f ap) ac.maxFlightRange = false →
      (jgt f.economySeats (JsNum.num 0) && (ac.economySeats == JsNum.num 0)) = false →
      (jgt f.businessSeats (JsNum.num 0) && (ac.businessSeats == JsNum.num 0)) = false →
      (jgt f.firstClassSeats (JsNum.num 0) && (ac.firstClassSeats == JsNum.num 0)) = false →
      ∃ e, Planning.calculateProfit f as cs = .error e ∧ Planning.IsOverbooking e) ∧
    (∀ (f : Flight) (as : List Airport) (cs : List Batch.Aircraft)
        (ap : Airport) (ac : Batch.Aircraft),
      findDetails f.overseasAirport as (fun a => a.code) = some ap →
      findDetails f.aircraftType cs (fun a => a.type) = some ac →
      jsIsNaN (Batch.getDistance f.ukAirport ap) = false →
      jsIsNaN ac.runningCostPerSeatPer100km = false →
      jsIsNaN ac.maxFlightRange = false →
      jsIsNaN ac.totalSeats = false →
      jgt (Batch.getDistance f.ukAirport ap) ac.maxFlightRange = false →
      jgt (jadd (jadd f.economySeats f.businessSeats) f.firstClassSeats) ac.totalSeats = true →
      Batch.calculateFlightProfit f as cs =
        .error (.overbooking (jadd (jadd f.economySeats f.businessSeats) f.firstClassSeats)
          ac.totalSeats)) := by
  refine ⟨?_, ?_, ?_⟩
  · intro f as cs ap ac hap hac htot
    simp only [Planning.calculateProfit, hap, hac]
    repeat' split
    all_goals rfl
  · intro f as cs ap ac hap hac htot hr hca hcb hcf
    simp only [Planning.calculateProfit, hap, hac]
    simp only [hr, hca, hcb, hcf, htot, Bool.false_eq_true, if_false, if_true]
    repeat' split
    all_goals exact ⟨_, rfl, trivial⟩
  · intro f as cs ap ac hap hac hd hrc hmr hts hr htot
    simp [Batch.calculateFlightProfit, hap, hac, hd, hrc, hmr, hts, hr, htot]

/-- Witness for C2 at a request that is overbooked in total: never a
success, an overbooking error in the class-aware pipeline, and the
total-scoped overbooking value in the total-capacity pipeline. -/
theorem c2_total_overbooking_amended_witness :
    Planning.isSuccess (Planning.calculateProfit w2flight [w2airport] [w2aircraftP]) = false ∧
    (∃ e, Planning.calculateProfit w2flight [w2airport] [w2aircraftP] = .error e ∧
      Planning.IsOverbooking e) ∧
    Batch.calculateFlightProfit w2flight [w2airport] [w2aircraftB] =
      .error (.overbooking (jadd (jadd w2flight.economySeats w2flight.businessSeats)
        w2flight.firstClassSeats) w2aircraftB.totalSeats) :=
  ⟨c2_total_overbooking_amended.1 w2flight [w2airport] [w2aircraftP] w2airport w2aircraftP
      rfl rfl (by norm_num [jgt, jadd, w2flight, w2aircraftP]),
   c2_total_overbooking_amended.2.1 w2flight [w2airport] [w2aircraftP] w2airport w2aircraftP
      rfl rfl (by norm_num [jgt, jadd, w2flight, w2aircraftP])
      (by norm_num [jgt, Planning.distanceFor, upMAN, w2flight, w2airport, w2aircraftP])
      (by norm_num [jgt, w2flight, w2aircraftP])
      (by norm_num [jgt, w2flight, w2aircraftP])
      (by norm_num [jgt, w2flight, w2aircraftP]),
   c2_total_overbooking_amended.2.2 w2flight [w2airport] [w2aircraftB] w2airport w2aircraftB
      rfl rfl rfl rfl rfl rfl
      (by norm_num [jgt, Batch.getDistance, w2flight, w2airport, w2aircraftB])
      (by norm_num [jgt, jadd, w2flight, w2aircraftB])⟩

/-- C3 counterexample: in the total-capacity pipeline a request whose
selected distance (200) exceeds the max range (100) yields
`InvalidNumericData` for the malformed running-cost field, not
`RangeExceeded`, because the numeric sanity check runs first. -/
theorem c3_counterexample :
    Batch.calculateFlightProfit cx2flight [cx2airport] [cx3aircraftB] =
      .error (.invalidNumericData "running cost" .nan) ∧
    jgt (Batch.getDistance cx2flight.ukAirport cx2airport) cx3aircraftB.maxFlightRange = true := by
  constructor
  · norm_num [Batch.calculateFlightProfit, findDetails, List.find?, Batch.getDistance,
      jsIsNaN, cx2flight, cx2airport, cx3aircraftB]
  · norm_num [jgt, Batch.getDistance, cx2flight, cx2airport, cx3aircraftB]

/-- C3 (amended): when the airport and aircraft resolve and the selected
distance exceeds the aircraft's max range, the result is `RangeExceeded`
carrying the distance and the max range, whatever the booked seat counts —
unconditionally in the class-aware pipeline, and provided the running-cost
and total-seats fields are numeric in the total-capacity pipeline (whose
numeric sanity check runs first). -/
theorem c3_range_exceeded_amended :
    (∀ (f : Flight) (as : List Airport) (cs : List Planning.Aircraft)
        (ap : Airport) (ac : Planning.Aircraft),
      findDetails f.overseasAirport as (fun a => a.code) = some ap →
      findDetails f.aircraftType cs (fun a => a.type) = some ac →
      jgt (Planning.distanceFor f ap) ac.maxFlightRange = true →
      Planning.calculateProfit f as cs = .error (.rangeExceeded f.ukAirport f.overseasAirport
        f.aircraftType (Planning.distanceFor f ap) ac.maxFlightRange)) ∧
    (∀ (f : Flight) (as : List Airport) (cs : List Batch.Aircraft)
        (ap : Airport) (ac : Batch.Aircraft),
      findDetails f.overseasAirport as (fun a => a.code) = some ap →
      findDetails f.aircraftType cs (fun a => a.type) = some ac →
      jsIsNaN ac.runningCostPerSeatPer100km = false →
      jsIsNaN ac.totalSeats = false →
      jgt (Batch.getDistance f.ukAirport ap) ac.maxFlightRange = true →
      Batch.calculateFlightProfit f as cs =
        .error (.rangeExceeded (Batch.getDistance f.ukAirport ap) ac.maxFlightRange)) := by
  constructor
  · intro f as cs ap ac hap hac hr
    simp [Planning.calculateProfit, hap, hac, hr]
  · intro f as cs ap ac hap hac hrc hts hr
    obtain ⟨hd, hmr⟩ := jgt_no_nan _ _ hr
    simp [Batch.calculateFlightProfit, hap, hac, hd, hrc, hmr, hts, hr]

/-- Witness for C3 at a request 200 km out on a 100 km-range aircraft. -/
theorem c3_range_exceeded_amended_witness :
    Planning.calculateProfit w3flight [w3airport] [w3aircraftP] =
      .error (.rangeExceeded w3flight.ukAirport w3flight.overseasAirport
        w3flight.aircraftType (Planning.distanceFor w3flight w3airport)
        w3aircraftP.maxFlightRange) ∧
    Batch.calculateFlightProfit w3flight [w3airport] [w3aircraftB] =
      .error (.rangeExceeded (Batch.getDistance w3flight.ukAirport w3airport)
        w3aircraftB.maxFlightRange) :=
  ⟨c3_range_exceeded_amended.1 w3flight [w3airport] [w3aircraftP] w3airport w3aircraftP
      rfl rfl
      (by norm_num [jgt, Planning.distanceFor, upMAN, w3flight, w3airport, w3aircraftP]),
   c3_range_exceeded_amended.2 w3flight [w3airport] [w3aircraftB] w3airport w3aircraftB
      rfl rfl rfl rfl
      (by norm_num [jgt, Batch.getDistance, w3flight, w3airport, w3aircraftB])⟩

/-- C4 counterexample: the class-aware pipeline performs no numeric sanity
check — a request whose resolved aircraft has a non-numeric economy
capacity reaches a success result instead of terminating with an
`InvalidNumericData` error. -/
theorem c4_counterexample :
    Planning.isSuccess (Planning.calculateProfit cx4flight [cx4airport] [cx4aircraftP]) = true ∧
    cx4aircraftP.economySeats = JsNum.nan := by
  constructor
  · norm_num [Planning.calculateProfit, findDetails, List.find?, Planning.distanceFor,
      Planning.calculateCO2Emissions, Planning.isSuccess, jgt, jadd, jmul, jdiv, jsub, jneg,
      toFixed2, jsIsNaN, upMAN, cx4flight, cx4airport, cx4aircraftP]
  · rfl

/-- C4 (amended): the total-capacity pipeline checks the selected distance,
the running cost, the max flight range and the total capacity — in that
order, before the range check — and terminates with `InvalidNumericData`
naming the first non-numeric field; the class-aware pipeline performs no
such check. -/
theorem c4_numeric_check_amended :
    ∀ (f : Flight) (as : List Airport) (cs : List Batch.Aircraft)
      (ap : Airport) (ac : Batch.Aircraft),
      findDetails f.overseasAirport as (fun a => a.code) = some ap →
      findDetails f.aircraftType cs (fun a => a.type) = some ac →
      ((jsIsNaN (Batch.getDistance f.ukAirport ap) = true →
        Batch.calculateFlightProfit f as cs =
          .error (.invalidNumericData "distance" (Batch.getDistance f.ukAirport ap))) ∧
       (jsIsNaN (Batch.getDistance f.ukAirport ap) = false →
        jsIsNaN ac.runningCostPerSeatPer100km = true →
        Batch.calculateFlightProfit f as cs =
          .error (.invalidNumericData "running cost" ac.runningCostPerSeatPer100km)) ∧
       (jsIsNaN (Batch.getDistance f.ukAirport ap) = false →
        jsIsNaN ac.runningCostPerSeatPer100km = false →
        jsIsNaN ac.maxFlightRange = true →
        Batch.calculateFlightProfit f as cs =
          .error (.invalidNumericData "max flight range" ac.maxFlightRange)) ∧
       (jsIsNaN (Batch.getDistance f.ukAirport ap) = false →
        jsIsNaN ac.runningCostPerSeatPer100km = false →
        jsIsNaN ac.maxFlightRange = false →
        jsIsNaN ac.totalSeats = true →
        Batch.calculateFlightProfit f as cs =
          .error (.invalidNumericData "total seats" ac.totalSeats))) := by
  intro f as cs ap ac hap hac
  refine ⟨?_, ?_, ?_, ?_⟩
  · intro h1
    simp [Batch.calculateFlightProfit, hap, hac, h1]
  · intro h1 h2
    simp [Batch.calculateFlightProfit, hap, hac, h1, h2]
  · intro h1 h2 h3
    simp [Batch.calculateFlightProfit, hap, hac, h1, h2, h3]
  · intro h1 h2 h3 h4
    simp [Batch.calculateFlightProfit, hap, hac, h1, h2, h3, h4]

/-- Witness for C4: each of the four fields made non-numeric in turn
produces the corresponding `InvalidNumericData` error. -/
theorem c4_numeric_check_amended_witness :
    Batch.calculateFlightProfit w4flight [w4airportNaN] [w4aircraftB] =
      .error (.invalidNumericData "distance" (Batch.getDistance w4flight.ukAirport w4airportNaN)) ∧
    Batch.calculateFlightProfit w4flight [w4airport] [w4aircraftRC] =
      .error (.invalidNumericData "running cost" w4aircraftRC.runningCostPerSeatPer100km) ∧
    Batch.calculateFlightProfit w4flight [w4airport] [w4aircraftMR] =
      .error (.invalidNumericData "max flight range" w4aircraftMR.maxFlightRange) ∧
    Batch.calculateFlightProfit w4flight [w4airport] [w4aircraftTS] =
      .error (.invalidNumericData "total seats" w4aircraftTS.totalSeats) :=
  ⟨(c4_numeric_check_amended w4flight [w4airportNaN] [w4aircraftB] w4airportNaN w4aircraftB
      rfl rfl).1 rfl,
   (c4_numeric_check_amended w4flight [w4airport] [w4aircraftRC] w4airport w4aircraftRC
      rfl rfl).2.1 rfl rfl,
   (c4_numeric_check_amended w4flight [w4airport] [w4aircraftMR] w4airport w4aircraftMR
      rfl rfl).2.2.1 rfl rfl rfl,
   (c4_numeric_check_amended w4flight [w4airport] [w4aircraftTS] w4airport w4aircraftTS
      rfl rfl).2.2.2 rfl rfl rfl rfl⟩

/-- C5 counterexample: in the total-capacity pipeline the origin match is
case-sensitive — a request whose UK origin is `"man"` (the primary code up
to letter case) selects the second distance field (300 km, out of range)
although the first distance field (50 km) is in range, so origin matching
does not behave the same whatever the letter case. -/
theorem c5_counterexample :
    Batch.calculateFlightProfit cx5flight [cx5airport] [cx5aircraftB] =
      .error (.rangeExceeded (.num 300) (.num 100)) ∧
    cx5flight.ukAirport = "man" ∧
    toUpperCase cx5flight.ukAirport = "MAN" ∧
    cx5airport.distanceFromMan = .num 50 ∧
    jgt cx5airport.distanceFromMan cx5aircraftB.maxFlightRange = false := by
  refine ⟨?_, rfl, rfl, rfl, ?_⟩
  · norm_num [Batch.calculateFlightProfit, findDetails, List.find?, Batch.getDistance,
      jsIsNaN, jgt, jadd, cx5flight, cx5airport, cx5aircraftB,
      show ("man" : String) ≠ "MAN" from by decide]
  · norm_num [jgt, cx5airport, cx5aircraftB]

/-- C5 (amended): the class-aware pipeline selects the first distance field
exactly when the uppercased origin is `"MAN"` (case-insensitive, as the
claim states); the total-capacity pipelines compare the origin to `"MAN"`
case-sensitively, so any other spelling — including `"man"` — selects the
second distance field. -/
theorem c5_distance_selection_amended :
    (∀ (f : Flight) (ap : Airport), toUpperCase f.ukAirport = "MAN" →
      Planning.distanceFor f ap = ap.distanceFromMan) ∧
    (∀ (f : Flight) (ap : Airport), toUpperCase f.ukAirport ≠ "MAN" →
      Planning.distanceFor f ap = ap.distanceFromLhr) ∧
    (∀ (uk : String) (ap : Airport), uk = "MAN" →
      Batch.getDistance uk ap = ap.distanceFromMan) ∧
    (∀ (uk : String) (ap : Airport), uk ≠ "MAN" →
      Batch.getDistance uk ap = ap.distanceFromLhr) :=
  ⟨distanceFor_man, distanceFor_other, getDistance_man, getDistance_other⟩

/-- Witness for C5: a mixed-case origin still selects the first field in
the class-aware pipeline; a lower-case origin selects the second field in
the total-capacity pipeline. -/
theorem c5_distance_selection_amended_witness :
    Planning.distanceFor w5flightMaN w5airport = w5airport.distanceFromMan ∧
    Planning.distanceFor w5flightLGW w5airport = w5airport.distanceFromLhr ∧
    Batch.getDistance "MAN" w5airport = w5airport.distanceFromMan ∧
    Batch.getDistance "man" w5airport = w5airport.distanceFromLhr :=
  ⟨c5_distance_selection_amended.1 w5flightMaN w5airport rfl,
   c5_distance_selection_amended.2.1 w5flightLGW w5airport (by decide),
   c5_distance_selection_amended.2.2.1 "MAN" w5airport rfl,
   c5_distance_selection_amended.2.2.2 "man" w5airport (by decide)⟩

/-- C6 counterexample: on an aircraft-table miss the total-capacity
pipeline's failure value carries only the rejected type, not the list of
valid keys of the table (which contains `"A320"`). -/
theorem c6_counterexample :
    Batch.calculateFlightProfit cx6flight [cx6airport] [cx6aircraftB] =
      .error (.invalidAircraft "B900") ∧
    Batch.errorKeyList (.invalidAircraft "B900") = none ∧
    cx6aircraftB.type = "A320" :=
  ⟨rfl, rfl, rfl⟩

/-- C6 (amended): lookup succeeds exactly when some record's key equals the
request key up to letter case, with no partial matching; on a miss the
airport-table failure carries the full key list in both pipelines, the
aircraft-table failure carries it only in the class-aware pipeline (the
total-capacity pipeline reports just the rejected type). -/
theorem c6_lookup_amended :
    (∀ {α : Type} (key : String) (ds : List α) (keyOf : α → String),
      (findDetails key ds keyOf).isSome = true ↔
        ∃ r ∈ ds, toUpperCase (keyOf r) = toUpperCase key) ∧
    (∀ (f : Flight) (as : List Airport) (cs : List Planning.Aircraft),
      findDetails f.overseasAirport as (fun a => a.code) = none →
      Planning.calculateProfit f as cs =
        .error (.unknownAirport f.overseasAirport (as.map (fun a => a.code)))) ∧
    (∀ (f : Flight) (as : List Airport) (cs : List Planning.Aircraft) (ap : Airport),
      findDetails f.overseasAirport as (fun a => a.code) = some ap →
      findDetails f.aircraftType cs (fun a => a.type) = none →
      Planning.calculateProfit f as cs =
        .error (.unknownAircraft f.ukAirport f.overseasAirport f.aircraftType
          (cs.map (fun a => a.type)))) ∧
    (∀ (f : Flight) (as : List Airport) (cs : List Batch.Aircraft),
      findDetails f.overseasAirport as (fun a => a.code) = none →
      Batch.calculateFlightProfit f as cs =
        .error (.invalidAirport f.overseasAirport (as.map (fun a => a.code)))) ∧
    (∀ (f : Flight) (as : List Airport) (cs : List Batch.Aircraft) (ap : Airport),
      findDetails f.overseasAirport as (fun a => a.code) = some ap →
      findDetails f.aircraftType cs (fun a => a.type) = none →
      Batch.calculateFlightProfit f as cs = .error (.invalidAircraft f.aircraftType)) := by
  refine ⟨?_, ?_, ?_, ?_, ?_⟩
  · intro α key ds keyOf
    simp [findDetails, List.find?_isSome]
  · intro f as cs hap
    simp [Planning.calculateProfit, hap]
  · intro f as cs ap hap hac
    simp [Planning.calculateProfit, hap, hac]
  · intro f as cs hap
    simp [Batch.calculateFlightProfit, hap]
  · intro f as cs ap hap hac
    simp [Batch.calculateFlightProfit, hap, hac]

/-- Witness for C6: a lower-case key resolves against an upper-case record;
concrete misses produce the stated failure values. -/
theorem c6_lookup_amended_witness :
    ((findDetails "a320" [w6aircraftP] (fun a => a.type)).isSome = true ↔
      ∃ r ∈ [w6aircraftP], toUpperCase r.type = toUpperCase "a320") ∧
    Planning.calculateProfit w6flight [w6airport] [w6aircraftP] =
      .error (.unknownAirport w6flight.overseasAirport ([w6airport].map (fun a => a.code))) ∧
    Planning.calculateProfit w6flightJFK [w6airport] [w6aircraftP] =
      .error (.unknownAircraft w6flightJFK.ukAirport w6flightJFK.overseasAirport
        w6flightJFK.aircraftType ([w6aircraftP].map (fun a => a.type))) ∧
    Batch.calculateFlightProfit w6flight [w6airport] [w6aircraftB] =
      .error (.invalidAirport w6flight.overseasAirport ([w6airport].map (fun a => a.code))) ∧
    Batch.calculateFlightProfit w6flightJFK [w6airport] [w6aircraftB] =
      .error (.invalidAircraft w6flightJFK.aircraftType) :=
  ⟨c6_lookup_amended.1 "a320" [w6aircraftP] (fun a => a.type),
   c6_lookup_amended.2.1 w6flight [w6airport] [w6aircraftP] rfl,
   c6_lookup_amended.2.2.1 w6flightJFK [w6airport] [w6aircraftP] w6airport rfl rfl,
   c6_lookup_amended.2.2.2.1 w6flight [w6airport] [w6aircraftB] rfl,
   c6_lookup_amended.2.2.2.2 w6flightJFK [w6airport] [w6aircraftB] w6airport rfl rfl⟩

/-- C7 counterexample: in the total-capacity pipeline the value returned
to the caller on a failing request is `null`, which carries no context at
all — the diagnostic only goes to the console. -/
theorem c7_counterexample :
    Batch.returnValue (Batch.calculateFlightProfit cx7flight [] []) = none ∧
    Batch.calculateFlightProfit cx7flight [] [] = .error (.invalidAirport "JFK" []) :=
  ⟨rfl, rfl⟩

/-- C7 (amended): the class-aware pipeline is total — every request yields
either a success record or the first error encountered as a data value —
and each error value carries the context of the failure: the airport and
overseas codes, the aircraft type, the valid-key lists on a lookup miss,
the distance and max range on a range failure, and the requested versus
available counts on an overbooking failure.  The total-capacity pipelines
instead log the diagnostic and hand the caller `null`. -/
theorem c7_errors_as_data_amended :
    ∀ (f : Flight) (as : List Airport) (cs : List Planning.Aircraft),
      (∃ s, Planning.calculateProfit f as cs = .ok s) ∨
      (∃ e, Planning.calculateProfit f as cs = .error e ∧ Planning.ErrorContext f as cs e) := by
  intro f as cs
  unfold Planning.calculateProfit
  cases hap : findDetails f.overseasAirport as (fun a => a.code) with
  | none => exact Or.inr ⟨_, rfl, rfl, rfl⟩
  | some ap =>
    cases hac : findDetails f.aircraftType cs (fun a => a.type) with
    | none => exact Or.inr ⟨_, rfl, rfl, rfl, rfl, rfl⟩
    | some ac =>
      dsimp only
      repeat' split
      all_goals first
        | exact Or.inl ⟨_, rfl⟩
        | exact Or.inr ⟨_, rfl, rfl, rfl⟩
        | exact Or.inr ⟨_, rfl, rfl, rfl, rfl⟩
        | exact Or.inr ⟨_, rfl, rfl, rfl, rfl, ap, ac, hap, hac, rfl, rfl⟩
        | exact Or.inr ⟨_, rfl, rfl, rfl, rfl, ac, hac, Or.inl ⟨rfl, rfl, rfl⟩⟩
        | exact Or.inr ⟨_, rfl, rfl, rfl, rfl, ac, hac, Or.inr (Or.inl ⟨rfl, rfl, rfl⟩)⟩
        | exact Or.inr ⟨_, rfl, rfl, rfl, rfl, ac, hac, Or.inr (Or.inr ⟨rfl, rfl, rfl⟩)⟩
        | exact Or.inr ⟨_, rfl, rfl, rfl, rfl, rfl, ac, hac, rfl⟩

/-- C8 counterexample: a success result whose booked economy count is the
negative number `-5` and whose profit is `NaN` (the malformed running cost
flows through unchecked) — the pipeline does not enforce non-negativity or
finiteness on success. -/
theorem c8_counterexample :
    Planning.successProfit (Planning.calculateProfit cx8flight [cx8airport] [cx8aircraftP]) =
      some JsNum.nan ∧
    cx8flight.economySeats = JsNum.num (-5) := by
  constructor
  · norm_num [Planning.calculateProfit, findDetails, List.find?, Planning.distanceFor,
      Planning.calculateCO2Emissions, Planning.successProfit, jgt, jadd, jmul, jdiv, jsub,
      jneg, toFixed2, jsIsNaN, upMAN, cx8flight, cx8airport, cx8aircraftP]
  · rfl

set_option maxHeartbeats 4000000 in
/-- C8 (amended): in every successful calculation — of the class-aware
pipeline and of the total-capacity pipeline alike — whose request seat
counts and prices and whose resolved reference fields are finite numbers,
the total booked seats do not exceed the total capacity and the reported
income, cost and profit are finite; non-negativity of seat counts and
prices is a precondition of the data model, not enforced by either
pipeline. -/
theorem c8_success_invariants_amended :
    (∀ (f : Flight) (as : List Airport) (cs : List Planning.Aircraft)
      (ap : Airport) (ac : Planning.Aircraft) (s : Planning.CalcResult)
      (qe qb qf qpe qpb qpf qrc qd qE qB qF : ℚ),
      findDetails f.overseasAirport as (fun a => a.code) = some ap →
      findDetails f.aircraftType cs (fun a => a.type) = some ac →
      f.economySeats = .num qe → f.businessSeats = .num qb → f.firstClassSeats = .num qf →
      f.economyPrice = .num qpe → f.businessPrice = .num qpb → f.firstClassPrice = .num qpf →
      ac.runningCostPerSeatPer100km = .num qrc →
      Planning.distanceFor f ap = .num qd →
      ac.economySeats = .num qE → ac.businessSeats = .num qB → ac.firstClassSeats = .num qF →
      Planning.calculateProfit f as cs = .ok s →
      qe + qb + qf ≤ qE + qB + qF ∧
      jsIsFinite s.income = true ∧ jsIsFinite s.cost = true ∧ jsIsFinite s.profit = true) ∧
    (∀ (f : Flight) (as : List Airport) (cs : List Batch.Aircraft)
      (ap : Airport) (ac : Batch.Aircraft) (s : Batch.CalcResult)
      (qe qb qf qpe qpb qpf qrc qd qts : ℚ),
      findDetails f.overseasAirport as (fun a => a.code) = some ap →
      findDetails f.aircraftType cs (fun a => a.type) = some ac →
      f.economySeats = .num qe → f.businessSeats = .num qb → f.firstClassSeats = .num qf →
      f.economyPrice = .num qpe → f.businessPrice = .num qpb → f.firstClassPrice = .num qpf →
      ac.runningCostPerSeatPer100km = .num qrc →
      Batch.getDistance f.ukAirport ap = .num qd →
      ac.totalSeats = .num qts →
      Batch.calculateFlightProfit f as cs = .ok s →
      qe + qb + qf ≤ qts ∧
      jsIsFinite s.income = true ∧ jsIsFinite s.cost = true ∧ jsIsFinite s.profit = true) := by
  constructor
  · intro f as cs ap ac s qe qb qf qpe qpb qpf qrc qd qE qB qF hap hac he hb hf hpe hpb hpf
      hrc hd hE hB hF hok
    simp only [Planning.calculateProfit, hap, hac] at hok
    repeat' split at hok
    any_goals exact Except.noConfusion hok
    cases hok
    rename_i hrange hce hcb hcf hoe hob hof htot
    rw [he, hb, hf, hE, hB, hF] at htot
    simp only [jadd, jgt, decide_eq_true_eq] at htot
    refine ⟨le_of_not_lt htot, ?_, ?_, ?_⟩
    · simp only [he, hb, hf, hpe, hpb, hpf, jadd, jmul, toFixed2, jsIsFinite]
    · simp only [he, hb, hf, hrc, hd, jadd, jmul, jdiv_num_hundred, toFixed2, jsIsFinite]
    · simp only [he, hb, hf, hpe, hpb, hpf, hrc, hd, jadd, jmul, jdiv_num_hundred, jsub,
        jneg, toFixed2, jsIsFinite]
  · intro f as cs ap ac s qe qb qf qpe qpb qpf qrc qd qts hap hac he hb hf hpe hpb hpf
      hrc hd hts hok
    simp only [Batch.calculateFlightProfit, hap, hac] at hok
    repeat' split at hok
    any_goals exact Except.noConfusion hok
    cases hok
    rename_i hd1 hrc1 hmr1 hts1 hrange htot hinc hcost
    rw [he, hb, hf, hts] at htot
    simp only [jadd, jgt, decide_eq_true_eq] at htot
    refine ⟨le_of_not_lt htot, ?_, ?_, ?_⟩
    · simp only [he, hb, hf, hpe, hpb, hpf, jadd, jmul, toFixed2, jsIsFinite]
    · simp only [he, hb, hf, hrc, hd, jadd, jmul, jdiv_num_hundred, toFixed2, jsIsFinite]
    · simp only [he, hb, hf, hpe, hpb, hpf, hrc, hd, jadd, jmul, jdiv_num_hundred, jsub,
        jneg, toFixed2, jsIsFinite]

/-- Witness for C8 at a concrete all-numeric booked flight, through both
pipelines. -/
theorem c8_success_invariants_amended_witness :
    ((10 : ℚ) + 5 + 2 ≤ 100 + 50 + 10 ∧
     jsIsFinite w8result.income = true ∧ jsIsFinite w8result.cost = true ∧
     jsIsFinite w8result.profit = true) ∧
    ((10 : ℚ) + 5 + 2 ≤ 160 ∧
     jsIsFinite w8resultB.income = true ∧ jsIsFinite w8resultB.cost = true ∧
     jsIsFinite w8resultB.profit = true) :=
  ⟨c8_success_invariants_amended.1 w8flight [w8airport] [w8aircraftP] w8airport w8aircraftP
      w8result 10 5 2 100 200 300 1 500 100 50 10
      rfl rfl rfl rfl rfl rfl rfl rfl rfl rfl rfl rfl rfl
      (by norm_num [Planning.calculateProfit, findDetails, List.find?, Planning.distanceFor,
        Planning.calculateCO2Emissions, jgt, jadd, jmul, jdiv, jsub, jneg, toFixed2, upMAN,
        w8flight, w8airport, w8aircraftP, w8result]),
   c8_success_invariants_amended.2 w8flight [w8airport] [w8aircraftB] w8airport w8aircraftB
      w8resultB 10 5 2 100 200 300 1 500 160
      rfl rfl rfl rfl rfl rfl rfl rfl rfl rfl rfl
      (by norm_num [Batch.calculateFlightProfit, findDetails, List.find?, Batch.getDistance,
        jgt, jadd, jmul, jdiv, jsub, jneg, jceil, jsIsNaN, toFixed2,
        show (⌈(17 : ℚ) / 40⌉ : ℤ) = 1 from by norm_num [Int.ceil_eq_iff],
        w8flight, w8airport, w8aircraftB, w8resultB])⟩

/-- C9: a concrete request passes every validation step with income exactly
zero; the pipeline returns a success whose profitMargin is `-Infinity` —
not a finite number — because the division `profit / income` is unguarded. -/
theorem c9_zero_income_margin :
    Planning.successIncome (Planning.calculateProfit c9flight [c9airport] [c9aircraftP]) =
      some (JsNum.num 0) ∧
    Planning.successMargin (Planning.calculateProfit c9flight [c9airport] [c9aircraftP]) =
      some (JsNum.inf false) ∧
    jsIsFinite (JsNum.inf false) = false := by
  refine ⟨?_, ?_, rfl⟩ <;>
    norm_num [Planning.calculateProfit, findDetails, List.find?, Planning.distanceFor,
      Planning.calculateCO2Emissions, Planning.successIncome, Planning.successMargin,
      jgt, jadd, jmul, jdiv, jsub, jneg, toFixed2, jsIsNaN, upMAN,
      c9flight, c9airport, c9aircraftP]

/-- C10: the engine never rejects the UK-side origin: any origin other than
the primary code selects the second distance field (case-insensitively in
the class-aware pipeline, case-sensitively in the total-capacity one), and
the kind of the class-aware result — drawn from success and the six error
kinds, none of which concerns the UK origin — is the same whatever
non-primary origin string the request carries. -/
theorem c10_uk_origin_never_rejected :
    (∀ (f : Flight) (ap : Airport), toUpperCase f.ukAirport ≠ "MAN" →
      Planning.distanceFor f ap = ap.distanceFromLhr) ∧
    (∀ (uk : String) (ap : Airport), uk ≠ "MAN" →
      Batch.getDistance uk ap = ap.distanceFromLhr) ∧
    (∀ (f : Flight) (as : List Airport) (cs : List Planning.Aircraft) (uk1 uk2 : String),
      toUpperCase uk1 ≠ "MAN" → toUpperCase uk2 ≠ "MAN" →
      Planning.resultKind (Planning.calculateProfit { f with ukAirport := uk1 } as cs) =
        Planning.resultKind (Planning.calculateProfit { f with ukAirport := uk2 } as cs)) := by
  refine ⟨distanceFor_other, getDistance_other, ?_⟩
  intro f as cs uk1 uk2 h1 h2
  have d1 : ∀ ap, Planning.distanceFor { f with ukAirport := uk1 } ap = ap.distanceFromLhr :=
    fun ap => distanceFor_other _ ap h1
  have d2 : ∀ ap, Planning.distanceFor { f with ukAirport := uk2 } ap = ap.distanceFromLhr :=
    fun ap => distanceFor_other _ ap h2
  unfold Planning.calculateProfit
  cases hap : findDetails f.overseasAirport as (fun a => a.code) with
  | none => rfl
  | some ap =>
    cases hac : findDetails f.aircraftType cs (fun a => a.type) with
    | none => rfl
    | some ac =>
      dsimp only
      rw [d1, d2]
      repeat' split
      all_goals rfl

/-- Witness for C10 at concrete non-primary origins. -/
theorem c10_uk_origin_never_rejected_witness :
    Planning.distanceFor w10flight w10airport = w10airport.distanceFromLhr ∧
    Batch.getDistance "lgw" w10airport = w10airport.distanceFromLhr ∧
    Planning.resultKind (Planning.calculateProfit { w10flight with ukAirport := "LGW" }
        [w10airport] [w10aircraftP]) =
      Planning.resultKind (Planning.calculateProfit { w10flight with ukAirport := "lgw" }
        [w10airport] [w10aircraftP]) :=
  ⟨c10_uk_origin_never_rejected.1 w10flight w10airport (by decide),
   c10_uk_origin_never_rejected.2.1 "lgw" w10airport (by decide),
   c10_uk_origin_never_rejected.2.2 w10flight [w10airport] [w10aircraftP] "LGW" "lgw"
     (by decide) (by decide)⟩
